import Mathlib

/-!
Shallow embedding of `app/models/cassandra_models.py` (the active, non-commented
implementation): the data-access layer of a two-party direct-messaging feature
backed by Cassandra.  Python values are modelled as follows: user ids are `Int`,
message content is `List Char` (Python strings are sequences of code points, and
`content[:200]` is `List.take 200`), `uuid.uuid4()` values are drawn from a
fresh-counter generator, and `cassandra.util.uuid_from_time` produces a
time-derived key carrying the timestamp plus a tie-breaker component.  The
Cassandra session is modelled as explicit state passing over a `Store` holding
the three tables; each `session.execute` call may raise a storage error, driven
by a fault schedule consumed one entry per call.  Python exceptions are
modelled with `Except PyError`.
-/

/-- Model of `uuid.uuid4()` results: a collision-free identifier drawn from a
fresh counter. -/
inductive UUID where
  | v4 : Nat → UUID
deriving DecidableEq, Repr

/-- Model of a Cassandra `timeuuid` as produced by `uuid_from_time`: the
embedded timestamp plus a tie-breaker component (clock sequence / node bits). -/
structure TimeUUID where
  time : Nat
  tie : Nat
deriving DecidableEq, Repr

/-- Ordering of `timeuuid` values in Cassandra: by embedded time first, then by
the remaining bits as tie-breaker. -/
def TimeUUID.ltb (x y : TimeUUID) : Bool :=
  decide (x.time < y.time ∨ (x.time = y.time ∧ x.tie < y.tie))

/-- Python exceptions crossing the modelled code: `ValueError` raised by
`_get_or_create_conversation_id` on `user1_id == user2_id` (the
InvalidArgument signal), and any driver/storage exception. -/
inductive PyError where
  | invalidArgument : PyError
  | storage : PyError
deriving DecidableEq, Repr

/-- A row of the `conversation_by_users` table. -/
structure ConvByUsersRow where
  user_a_id : Int
  user_b_id : Int
  conversation_id : UUID
deriving DecidableEq, Repr

/-- A row of the `messages_by_conversation` table. -/
structure MessageRow where
  conversation_id : UUID
  message_time : TimeUUID
  message_id : UUID
  sender_id : Int
  receiver_id : Int
  content : List Char
deriving DecidableEq, Repr

/-- A row of the `conversations_by_user` table. -/
structure ConvIndexRow where
  user_id : Int
  last_message_time : TimeUUID
  conversation_id : UUID
  other_user_id : Int
  last_message_sender_id : Int
  last_message_content : List Char
deriving DecidableEq, Repr

/-- The state threaded through every operation: the three Cassandra tables,
the generators behind `uuid.uuid4()` / `uuid_from_time` / `datetime.utcnow()`,
and the storage-fault schedule (one entry consumed per `session.execute`;
an exhausted schedule means no further faults). -/
structure Store where
  conversation_by_users : List ConvByUsersRow
  messages_by_conversation : List MessageRow
  conversations_by_user : List ConvIndexRow
  uuidCounter : Nat
  clock : Nat
  tieCounter : Nat
  faults : List Bool
deriving DecidableEq, Repr

/-- Consume one entry of the fault schedule: `true` means the next
`session.execute` raises a storage error. -/
def popFault (s : Store) : Bool × Store :=
  match s.faults with
  | [] => (false, s)
  | b :: rest => (b, { s with faults := rest })

/-- Model of `uuid.uuid4()`: a fresh, never-repeating identifier. -/
def uuid4 (s : Store) : UUID × Store :=
  (UUID.v4 s.uuidCounter, { s with uuidCounter := s.uuidCounter + 1 })

/-- Model of `cassandra.util.uuid_from_time t`: a time-derived key embedding
`t`, with fresh tie-breaker bits. -/
def uuid_from_time (t : Nat) (s : Store) : TimeUUID × Store :=
  (⟨t, s.tieCounter⟩, { s with tieCounter := s.tieCounter + 1 })

/-- Modelled from the spec: the schema files of this repository are not under
`src/`; §6 gives `conversation_by_users` the key `(user_a_id, user_b_id)`, so a
Cassandra `INSERT` overwrites the row with the same key. -/
def upsertConvByUsers (rows : List ConvByUsersRow) (r : ConvByUsersRow) :
    List ConvByUsersRow :=
  r :: rows.filter
    (fun x => !decide (x.user_a_id = r.user_a_id ∧ x.user_b_id = r.user_b_id))

/-- Modelled from the spec: the schema files of this repository are not under
`src/`; §6 partitions `messages_by_conversation` by `conversation_id` and
clusters by `message_time`, so an `INSERT` overwrites the row with the same
`(conversation_id, message_time)` key. -/
def upsertMessage (rows : List MessageRow) (r : MessageRow) : List MessageRow :=
  r :: rows.filter
    (fun x =>
      !decide (x.conversation_id = r.conversation_id ∧ x.message_time = r.message_time))

/-- Modelled from the spec: the schema files of this repository are not under
`src/`; §3 and §6 describe `conversations_by_user` as one logical row per
`(user_id, conversation_id)` pair, each `INSERT` overwriting (upserting) the
entry with the same key. -/
def upsertConvIndex (rows : List ConvIndexRow) (r : ConvIndexRow) :
    List ConvIndexRow :=
  r :: rows.filter
    (fun x => !decide (x.user_id = r.user_id ∧ x.conversation_id = r.conversation_id))

namespace MessageModel

/-- Embedding of `MessageModel._get_or_create_conversation_id` (lines 27-65):
raise `ValueError` on `user1_id == user2_id`; canonicalize the pair as
`(min, max)`; `SELECT ... LIMIT 1` on `conversation_by_users`; if found return
the stored id, else generate `uuid4` and `INSERT` the mapping.  Any storage
fault propagates as an exception. -/
def _get_or_create_conversation_id (user1_id user2_id : Int) (s : Store) :
    Except PyError UUID × Store :=
  if user1_id = user2_id then
    (Except.error PyError.invalidArgument, s)
  else
    let user_a_id := min user1_id user2_id
    let user_b_id := max user1_id user2_id
    let p := popFault s
    if p.1 then (Except.error PyError.storage, p.2)
    else
      match p.2.conversation_by_users.find?
          (fun r => decide (r.user_a_id = user_a_id ∧ r.user_b_id = user_b_id)) with
      | some row => (Except.ok row.conversation_id, p.2)
      | none =>
        let q := uuid4 p.2
        let p2 := popFault q.2
        if p2.1 then (Except.error PyError.storage, p2.2)
        else
          (Except.ok q.1,
            { p2.2 with conversation_by_users :=
                upsertConvByUsers p2.2.conversation_by_users ⟨user_a_id, user_b_id, q.1⟩ })

/-- Embedding of `MessageModel.create_message` (lines 67-120): the whole body
runs inside `try ... except Exception: return (None, None, None)`, so every
exception — including the `ValueError` raised by identity resolution — is
converted to the all-`None` failure triple.  On the success path: resolve the
conversation id, derive `message_time` from the current instant and a fresh
`message_id`, insert the message row, then upsert the sender's and the
receiver's index entries with the content truncated to 200 characters. -/
def create_message (sender_id receiver_id : Int) (content : List Char) (s : Store) :
    (Option UUID × Option TimeUUID × Option UUID) × Store :=
  match _get_or_create_conversation_id sender_id receiver_id s with
  | (Except.error _, s1) => ((none, none, none), s1)
  | (Except.ok conversation_id, s1) =>
    let t := uuid_from_time s1.clock s1
    let message_time := t.1
    let u := uuid4 t.2
    let message_id := u.1
    let p := popFault u.2
    if p.1 then ((none, none, none), p.2)
    else
      let msgs :=
        upsertMessage p.2.messages_by_conversation
          ⟨conversation_id, message_time, message_id, sender_id, receiver_id, content⟩
      let s3 := { p.2 with messages_by_conversation := msgs }
      let p2 := popFault s3
      if p2.1 then ((none, none, none), p2.2)
      else
        let idx1 :=
          upsertConvIndex p2.2.conversations_by_user
            ⟨sender_id, message_time, conversation_id, receiver_id, sender_id,
              content.take 200⟩
        let s4 := { p2.2 with conversations_by_user := idx1 }
        let p3 := popFault s4
        if p3.1 then ((none, none, none), p3.2)
        else
          let idx2 :=
            upsertConvIndex p3.2.conversations_by_user
              ⟨receiver_id, message_time, conversation_id, sender_id, sender_id,
                content.take 200⟩
          let s5 := { p3.2 with conversations_by_user := idx2 }
          ((some conversation_id, some message_time, some message_id), s5)

end MessageModel

/-- Shape of a message row as returned by the read paths: the stored row plus
the derived `created_at` timestamp and the `id` alias added by the
post-processing loop. -/
structure MessageOut where
  conversation_id : UUID
  message_time : TimeUUID
  message_id : UUID
  sender_id : Int
  receiver_id : Int
  content : List Char
  created_at : Option Nat
  id : UUID
deriving DecidableEq, Repr

/-- The post-processing applied to each fetched message row: extract the
timestamp embedded in `message_time` into `created_at` and alias `message_id`
as `id` (lines 148-154). -/
def formatMessage (m : MessageRow) : MessageOut :=
  { conversation_id := m.conversation_id
    message_time := m.message_time
    message_id := m.message_id
    sender_id := m.sender_id
    receiver_id := m.receiver_id
    content := m.content
    created_at := some m.message_time.time
    id := m.message_id }

namespace MessageModel

/-- Embedding of `MessageModel.get_conversation_messages` (lines 123-160):
`SELECT ... WHERE conversation_id = %s` with driver paging (`fetch_size` =
`page_size`, resuming at the opaque `paging_state`), post-processing each row;
any storage error is caught and degraded to `([], None)`.  The paging state is
modelled as the scan offset into the matching rows. -/
def get_conversation_messages (conversation_id : UUID) (page_size : Nat)
    (paging_state : Option Nat) (s : Store) :
    (List MessageOut × Option Nat) × Store :=
  let p := popFault s
  if p.1 then (([], none), p.2)
  else
    let matching := p.2.messages_by_conversation.filter
      (fun m => decide (m.conversation_id = conversation_id))
    let start := paging_state.getD 0
    let page := (matching.drop start).take page_size
    let next := if start + page_size < matching.length then some (start + page_size) else none
    ((page.map formatMessage, next), p.2)

/-- Embedding of `MessageModel.get_messages_before_timestamp` (lines 163-202):
derive `before_timeuuid = uuid_from_time before_timestamp`, then
`SELECT ... WHERE conversation_id = %s AND message_time < %s` with paging and
the same post-processing; any storage error degrades to `([], None)`. -/
def get_messages_before_timestamp (conversation_id : UUID) (before_timestamp : Nat)
    (page_size : Nat) (paging_state : Option Nat) (s : Store) :
    (List MessageOut × Option Nat) × Store :=
  let t := uuid_from_time before_timestamp s
  let before_timeuuid := t.1
  let p := popFault t.2
  if p.1 then (([], none), p.2)
  else
    let matching := p.2.messages_by_conversation.filter
      (fun m => decide (m.conversation_id = conversation_id) &&
        TimeUUID.ltb m.message_time before_timeuuid)
    let start := paging_state.getD 0
    let page := (matching.drop start).take page_size
    let next := if start + page_size < matching.length then some (start + page_size) else none
    ((page.map formatMessage, next), p.2)

end MessageModel

/-- Shape of a conversation summary as returned by
`ConversationModel.get_user_conversations` (lines 243-249). -/
structure ConvOut where
  id : UUID
  user1_id : Int
  user2_id : Int
  last_message_at : Option Nat
  last_message_content : List Char
deriving DecidableEq, Repr

/-- The per-row formatting of `get_user_conversations`: the queried user is
`user1_id`, the stored `other_user_id` is `user2_id`, and `last_message_at` is
the timestamp embedded in `last_message_time`. -/
def formatConvo (user_id : Int) (r : ConvIndexRow) : ConvOut :=
  { id := r.conversation_id
    user1_id := user_id
    user2_id := r.other_user_id
    last_message_at := some r.last_message_time.time
    last_message_content := r.last_message_content }

namespace ConversationModel

/-- Embedding of `ConversationModel.get_user_conversations` (lines 210-255):
`SELECT ... WHERE user_id = %s` with paging, each row formatted by
`formatConvo`; any storage error degrades to `([], None)`. -/
def get_user_conversations (user_id : Int) (page_size : Nat)
    (paging_state : Option Nat) (s : Store) :
    (List ConvOut × Option Nat) × Store :=
  let p := popFault s
  if p.1 then (([], none), p.2)
  else
    let matching := p.2.conversations_by_user.filter
      (fun r => decide (r.user_id = user_id))
    let start := paging_state.getD 0
    let page := (matching.drop start).take page_size
    let next := if start + page_size < matching.length then some (start + page_size) else none
    ((page.map (formatConvo user_id), next), p.2)

/-- Embedding of `ConversationModel.create_or_get_conversation` (lines
267-279): delegate to `_get_or_create_conversation_id` and catch every
exception, returning `None` on failure. -/
def create_or_get_conversation (user1_id user2_id : Int) (s : Store) :
    Option UUID × Store :=
  match MessageModel._get_or_create_conversation_id user1_id user2_id s with
  | (Except.ok cid, s1) => (some cid, s1)
  | (Except.error _, s1) => (none, s1)

end ConversationModel

/-- The empty store with a fault-free schedule. -/
def store₀ : Store := ⟨[], [], [], 0, 0, 0, []⟩

/-- Helper: resolving a pair with itself raises `ValueError` immediately,
before any storage access. -/
theorem resolve_self_eq (a : Int) (s : Store) :
    MessageModel._get_or_create_conversation_id a a s =
      (Except.error PyError.invalidArgument, s) := by
  simp [MessageModel._get_or_create_conversation_id]

@[simp] theorem popFault_conversation_by_users (s : Store) :
    (popFault s).2.conversation_by_users = s.conversation_by_users := by
  rcases h : s.faults with _ | ⟨b, rest⟩ <;> simp [popFault, h]

@[simp] theorem popFault_messages (s : Store) :
    (popFault s).2.messages_by_conversation = s.messages_by_conversation := by
  rcases h : s.faults with _ | ⟨b, rest⟩ <;> simp [popFault, h]

@[simp] theorem popFault_conversations_by_user (s : Store) :
    (popFault s).2.conversations_by_user = s.conversations_by_user := by
  rcases h : s.faults with _ | ⟨b, rest⟩ <;> simp [popFault, h]

@[simp] theorem popFault_uuidCounter (s : Store) :
    (popFault s).2.uuidCounter = s.uuidCounter := by
  rcases h : s.faults with _ | ⟨b, rest⟩ <;> simp [popFault, h]

@[simp] theorem popFault_clock (s : Store) :
    (popFault s).2.clock = s.clock := by
  rcases h : s.faults with _ | ⟨b, rest⟩ <;> simp [popFault, h]

@[simp] theorem popFault_tieCounter (s : Store) :
    (popFault s).2.tieCounter = s.tieCounter := by
  rcases h : s.faults with _ | ⟨b, rest⟩ <;> simp [popFault, h]

@[simp] theorem popFault_nil (s : Store) (h : s.faults = []) :
    popFault s = (false, s) := by
  simp [popFault, h]

@[simp] theorem uuid4_conversation_by_users (s : Store) :
    (uuid4 s).2.conversation_by_users = s.conversation_by_users := rfl

@[simp] theorem uuid4_messages (s : Store) :
    (uuid4 s).2.messages_by_conversation = s.messages_by_conversation := rfl

@[simp] theorem uuid4_conversations_by_user (s : Store) :
    (uuid4 s).2.conversations_by_user = s.conversations_by_user := rfl

@[simp] theorem uuid4_clock (s : Store) : (uuid4 s).2.clock = s.clock := rfl

@[simp] theorem uuid4_tieCounter (s : Store) :
    (uuid4 s).2.tieCounter = s.tieCounter := rfl

@[simp] theorem uuid4_faults (s : Store) : (uuid4 s).2.faults = s.faults := rfl

@[simp] theorem uuid_from_time_conversation_by_users (t : Nat) (s : Store) :
    (uuid_from_time t s).2.conversation_by_users = s.conversation_by_users := rfl

@[simp] theorem uuid_from_time_messages (t : Nat) (s : Store) :
    (uuid_from_time t s).2.messages_by_conversation = s.messages_by_conversation := rfl

@[simp] theorem uuid_from_time_conversations_by_user (t : Nat) (s : Store) :
    (uuid_from_time t s).2.conversations_by_user = s.conversations_by_user := rfl

@[simp] theorem uuid_from_time_clock (t : Nat) (s : Store) :
    (uuid_from_time t s).2.clock = s.clock := rfl

@[simp] theorem uuid_from_time_uuidCounter (t : Nat) (s : Store) :
    (uuid_from_time t s).2.uuidCounter = s.uuidCounter := rfl

@[simp] theorem uuid_from_time_faults (t : Nat) (s : Store) :
    (uuid_from_time t s).2.faults = s.faults := rfl

/-- Helper: identity resolution never touches the message log, the
conversation index, or the clock, whatever its outcome. -/
theorem resolve_preserves (a b : Int) (s : Store) :
    (MessageModel._get_or_create_conversation_id a b s).2.messages_by_conversation =
        s.messages_by_conversation ∧
      (MessageModel._get_or_create_conversation_id a b s).2.conversations_by_user =
        s.conversations_by_user ∧
      (MessageModel._get_or_create_conversation_id a b s).2.clock = s.clock := by
  unfold MessageModel._get_or_create_conversation_id
  dsimp only
  split
  · simp
  · split
    · simp
    · split
      · simp
      · split <;> simp

/-- Helper: a successful identity resolution implies the two users are
distinct. -/
theorem resolve_ok_ne (a b : Int) (s : Store) (res : UUID) (s1 : Store)
    (h : MessageModel._get_or_create_conversation_id a b s = (Except.ok res, s1)) :
    a ≠ b := by
  intro hab
  subst hab
  rw [resolve_self_eq] at h
  simp at h

/-- Helper: characterization of a successful `create_message`: the sender and
receiver are distinct, the message row is inserted into the per-conversation
log with the content untruncated, and the conversation index receives exactly
the sender's upsert followed by the receiver's mirrored upsert, both carrying
the same `message_time`, the same `last_message_sender_id = sender`, and the
content truncated to 200 characters. -/
theorem create_message_success_spec (sender_id receiver_id : Int)
    (content : List Char) (s : Store) (cid : UUID) (mt : TimeUUID) (mid : UUID)
    (s2 : Store)
    (h : MessageModel.create_message sender_id receiver_id content s =
      ((some cid, some mt, some mid), s2)) :
    sender_id ≠ receiver_id ∧
      s2.messages_by_conversation =
        upsertMessage s.messages_by_conversation
          ⟨cid, mt, mid, sender_id, receiver_id, content⟩ ∧
      s2.conversations_by_user =
        upsertConvIndex
          (upsertConvIndex s.conversations_by_user
            ⟨sender_id, mt, cid, receiver_id, sender_id, content.take 200⟩)
          ⟨receiver_id, mt, cid, sender_id, sender_id, content.take 200⟩ := by
  unfold MessageModel.create_message at h
  rcases hres : MessageModel._get_or_create_conversation_id sender_id receiver_id s
    with ⟨res, s1⟩
  rw [hres] at h
  have hpres := resolve_preserves sender_id receiver_id s
  rw [hres] at hpres
  obtain ⟨hmsg, hidx, hclock⟩ := hpres
  dsimp only at hmsg hidx hclock
  cases res with
  | error e => simp at h
  | ok cidr =>
    have hne := resolve_ok_ne sender_id receiver_id s cidr s1 hres
    dsimp only at h
    split_ifs at h with h1 h2 h3
    · simp at h
    · simp at h
    · simp at h
    · simp only [Prod.mk.injEq, Option.some.injEq] at h
      obtain ⟨⟨hcid, hmt, hmid⟩, hs2⟩ := h
      subst hcid
      subst hmt
      subst hmid
      subst hs2
      refine ⟨hne, ?_, ?_⟩
      · simp [hmsg]
      · simp [hidx]

/-- CLAIM C4: for all users `a` and `b` and every store state, `resolve(a,b)`
and `resolve(b,a)` behave identically (in particular they return the same
conversation identifier), because the pair is canonicalized as `(min, max)`
before any lookup or insert. -/
theorem resolve_commutative (user1_id user2_id : Int) (s : Store) :
    MessageModel._get_or_create_conversation_id user1_id user2_id s =
      MessageModel._get_or_create_conversation_id user2_id user1_id s := by
  unfold MessageModel._get_or_create_conversation_id
  by_cases h : user1_id = user2_id
  · subst h; rfl
  · have h2 : ¬ user2_id = user1_id := fun hh => h hh.symm
    rw [if_neg h, if_neg h2, min_comm, max_comm]

/-- CLAIM C5: `resolve(a,a)` always fails with the InvalidArgument error
(`ValueError`), never returns a conversation identifier, and performs no
storage access (the store — fault schedule included — is untouched). -/
theorem resolve_self_invalid_argument (a : Int) (s : Store) :
    MessageModel._get_or_create_conversation_id a a s =
      (Except.error PyError.invalidArgument, s) :=
  resolve_self_eq a s

/-- CLAIM C10: `create_message` never raises to its caller, and its result is
all-or-nothing: on success three non-`None` values, on any failure exactly
`(None, None, None)`. -/
theorem create_message_total (sender_id receiver_id : Int) (content : List Char)
    (s : Store) :
    (∃ c t m, (MessageModel.create_message sender_id receiver_id content s).1 =
        (some c, some t, some m)) ∨
      (MessageModel.create_message sender_id receiver_id content s).1 =
        (none, none, none) := by
  unfold MessageModel.create_message
  rcases h : MessageModel._get_or_create_conversation_id sender_id receiver_id s with ⟨res, s1⟩
  cases res with
  | error e => simp
  | ok cid =>
    simp only []
    split_ifs <;> simp

/-- CLAIM C1 counterexample: identity resolution on `sender == receiver`
raises the InvalidArgument error, yet `create_message` does NOT let it
propagate — its catch-all `except Exception` swallows it and returns the
failure triple `(None, None, None)`. -/
theorem create_message_swallows_invalid_argument :
    (MessageModel._get_or_create_conversation_id 1 1 store₀).1 =
        Except.error PyError.invalidArgument ∧
      (MessageModel.create_message 1 1 ['h', 'i'] store₀).1 = (none, none, none) :=
  ⟨rfl, rfl⟩

/-- CLAIM C1 (amended): the identity-resolution InvalidArgument error raised on
`sender_id == receiver_id` is caught by `create_message`'s operation-boundary
handler like every other error and converted to the failure result
`(None, None, None)`, with the store untouched; no exception crosses
`create_message`'s public contract. -/
theorem create_message_self_converted_to_failure (a : Int) (content : List Char)
    (s : Store) :
    MessageModel.create_message a a content s = ((none, none, none), s) := by
  unfold MessageModel.create_message
  rw [resolve_self_eq]

/-- Helper: the upserted canonical-pair row is found at the head of the
table. -/
theorem find?_head_upsertConvByUsers (rows : List ConvByUsersRow) (ua ub : Int)
    (cid : UUID) :
    List.find? (fun r => decide (r.user_a_id = ua) && decide (r.user_b_id = ub))
        (upsertConvByUsers rows ⟨ua, ub, cid⟩) =
      some ⟨ua, ub, cid⟩ := by
  unfold upsertConvByUsers
  rw [List.find?_cons_of_pos]
  simp

/-- Helper: fault-free resolution when the canonical pair is already mapped is
a pure lookup returning the stored identifier. -/
theorem resolve_found (a b : Int) (s : Store) (hne : ¬ a = b)
    (hf : s.faults = []) (row : ConvByUsersRow)
    (hfind : s.conversation_by_users.find?
        (fun r => decide (r.user_a_id = min a b) && decide (r.user_b_id = max a b)) =
      some row) :
    MessageModel._get_or_create_conversation_id a b s =
      (Except.ok row.conversation_id, s) := by
  simp [MessageModel._get_or_create_conversation_id, if_neg hne,
    popFault_nil s hf, hfind]

/-- Helper: fault-free resolution on first contact generates a fresh
identifier and inserts the canonical-pair mapping. -/
theorem resolve_not_found (a b : Int) (s : Store) (hne : ¬ a = b)
    (hf : s.faults = [])
    (hfind : s.conversation_by_users.find?
        (fun r => decide (r.user_a_id = min a b) && decide (r.user_b_id = max a b)) =
      none) :
    MessageModel._get_or_create_conversation_id a b s =
      (Except.ok (UUID.v4 s.uuidCounter),
        { s with
            uuidCounter := s.uuidCounter + 1,
            conversation_by_users :=
              upsertConvByUsers s.conversation_by_users
                ⟨min a b, max a b, UUID.v4 s.uuidCounter⟩ }) := by
  have hf2 : ({ s with uuidCounter := s.uuidCounter + 1 } : Store).faults = [] := hf
  simp [MessageModel._get_or_create_conversation_id, if_neg hne,
    popFault_nil s hf, hfind, uuid4, popFault_nil _ hf2]

/-- CLAIM C3: for distinct users `a` and `b` (fault-free storage), calling
`resolve(a,b)` twice sequentially on the same store returns the same
conversation identifier both times, the second call leaves the store exactly
as it was (no write), and if the pair already has an entry the first call
writes nothing either (a write happens only on first contact). -/
theorem resolve_idempotent (a b : Int) (s : Store) (hab : a ≠ b)
    (hf : s.faults = []) :
    ∃ cid,
      (MessageModel._get_or_create_conversation_id a b s).1 = Except.ok cid ∧
      (MessageModel._get_or_create_conversation_id a b
          (MessageModel._get_or_create_conversation_id a b s).2).1 = Except.ok cid ∧
      (MessageModel._get_or_create_conversation_id a b
          (MessageModel._get_or_create_conversation_id a b s).2).2 =
        (MessageModel._get_or_create_conversation_id a b s).2 ∧
      ((∃ r ∈ s.conversation_by_users,
          r.user_a_id = min a b ∧ r.user_b_id = max a b) →
        (MessageModel._get_or_create_conversation_id a b s).2 = s) := by
  have hne : ¬ a = b := hab
  rcases hfind : s.conversation_by_users.find?
      (fun r => decide (r.user_a_id = min a b) && decide (r.user_b_id = max a b)) with _ | row
  · -- pair not yet present: the first call inserts, the second finds the insert
    have h1 := resolve_not_found a b s hne hf hfind
    have h2 := resolve_found a b
      ({ s with
          uuidCounter := s.uuidCounter + 1,
          conversation_by_users :=
            upsertConvByUsers s.conversation_by_users
              ⟨min a b, max a b, UUID.v4 s.uuidCounter⟩ } : Store)
      hne hf ⟨min a b, max a b, UUID.v4 s.uuidCounter⟩
      (find?_head_upsertConvByUsers s.conversation_by_users (min a b) (max a b)
        (UUID.v4 s.uuidCounter))
    refine ⟨UUID.v4 s.uuidCounter, ?_, ?_, ?_, ?_⟩
    · rw [h1]
    · rw [h1]
      rw [h2]
    · rw [h1]
      rw [h2]
    · rintro ⟨r, hrmem, hra, hrb⟩
      have hcontra := List.find?_eq_none.mp hfind r hrmem
      simp [hra, hrb] at hcontra
  · -- pair already present: both calls are pure lookups
    have h1 := resolve_found a b s hne hf row hfind
    refine ⟨row.conversation_id, ?_, ?_, ?_, ?_⟩
    · rw [h1]
    · rw [h1]; rw [h1]
    · rw [h1]; rw [h1]
    · intro _; rw [h1]

/-- Two conversation-index rows collide on the logical key
`(user_id, conversation_id)`. -/
def sameIndexKey (x y : ConvIndexRow) : Prop :=
  x.user_id = y.user_id ∧ x.conversation_id = y.conversation_id

/-- The conversation index holds at most one entry per
`(user_id, conversation_id)` pair. -/
def indexNoDup (rows : List ConvIndexRow) : Prop :=
  rows.Pairwise (fun x y => ¬ sameIndexKey x y)

/-- The index entries of `rows` for the key `(u, c)`. -/
def entriesFor (rows : List ConvIndexRow) (u : Int) (c : UUID) :
    List ConvIndexRow :=
  rows.filter (fun r => decide (r.user_id = u ∧ r.conversation_id = c))

/-- Helper: upserting preserves key uniqueness of the conversation index. -/
theorem indexNoDup_upsert (rows : List ConvIndexRow) (r : ConvIndexRow)
    (h : indexNoDup rows) : indexNoDup (upsertConvIndex rows r) := by
  unfold indexNoDup upsertConvIndex
  refine List.Pairwise.cons ?_ (List.Pairwise.filter _ h)
  intro y hy hkey
  rw [List.mem_filter] at hy
  obtain ⟨hmem, hcond⟩ := hy
  simp only [Bool.not_eq_eq_eq_not, Bool.not_true, decide_eq_false_iff_not] at hcond
  exact hcond ⟨hkey.1.symm, hkey.2.symm⟩

/-- Helper: after an upsert, the entries for the upserted key are exactly the
new row. -/
theorem entriesFor_upsert_self (rows : List ConvIndexRow) (r : ConvIndexRow) :
    entriesFor (upsertConvIndex rows r) r.user_id r.conversation_id = [r] := by
  unfold entriesFor upsertConvIndex
  rw [List.filter_cons_of_pos (by simp)]
  have htail :
      (rows.filter
          (fun x =>
            !decide (x.user_id = r.user_id ∧ x.conversation_id = r.conversation_id))).filter
        (fun x => decide (x.user_id = r.user_id ∧ x.conversation_id = r.conversation_id)) =
      [] := by
    rw [List.filter_eq_nil_iff]
    intro a ha
    rw [List.mem_filter] at ha
    simp only [Bool.not_eq_eq_eq_not, Bool.not_true, decide_eq_false_iff_not] at ha
    simp only [decide_eq_true_eq]
    exact ha.2
  rw [htail]

/-- Helper: an upsert under a different key leaves the entries for `(u, c)`
unchanged. -/
theorem entriesFor_upsert_other (rows : List ConvIndexRow) (r : ConvIndexRow)
    (u : Int) (c : UUID) (hne : ¬ (u = r.user_id ∧ c = r.conversation_id)) :
    entriesFor (upsertConvIndex rows r) u c = entriesFor rows u c := by
  unfold entriesFor upsertConvIndex
  rw [List.filter_cons_of_neg
    (by
      simp only [decide_eq_true_eq]
      intro hk
      exact hne ⟨hk.1.symm, hk.2.symm⟩)]
  rw [List.filter_filter]
  refine List.filter_congr ?_
  intro a _
  by_cases hk : a.user_id = u ∧ a.conversation_id = c
  · simp [hk]
    exact not_and_or.mp hne
  · simp [hk]

/-- Helper: when the index is key-unique, the conversation listing for any
user never returns two entries with the same conversation id, on any page. -/
theorem get_user_conversations_nodup (u : Int) (page_size : Nat)
    (ps : Option Nat) (s : Store) (hnd : indexNoDup s.conversations_by_user) :
    ((ConversationModel.get_user_conversations u page_size ps s).1.1).Pairwise
      (fun x y => x.id ≠ y.id) := by
  unfold ConversationModel.get_user_conversations
  dsimp only
  split
  · simp
  · rw [popFault_conversations_by_user]
    rw [List.pairwise_map]
    have h1 : (s.conversations_by_user.filter
        (fun r => decide (r.user_id = u))).Pairwise
        (fun x y => ¬ sameIndexKey x y) := List.Pairwise.filter _ hnd
    have h2 : (s.conversations_by_user.filter
        (fun r => decide (r.user_id = u))).Pairwise
        (fun x y : ConvIndexRow => x.conversation_id ≠ y.conversation_id) := by
      refine List.Pairwise.imp_of_mem ?_ h1
      intro a b ha hb hnk hcc
      rw [List.mem_filter] at ha hb
      have hau : a.user_id = u := by simpa using ha.2
      have hbu : b.user_id = u := by simpa using hb.2
      exact hnk ⟨hau.trans hbu.symm, hcc⟩
    exact (h2.sublist
      ((List.take_sublist _ _).trans (List.drop_sublist _ _))).imp (fun h => h)

/-- CLAIM C2: starting from a key-unique index, a successful append keeps the
index key-unique (the second append between a pair overwrites the first: after
this append the surviving entry for each participant's `(user, conversation)`
key is exactly the entry of this — the latest — message), and the conversation
listing never returns two entries with the same conversation id for the same
user. -/
theorem index_one_entry_per_pair (sender_id receiver_id : Int)
    (content : List Char) (s : Store) (cid : UUID) (mt : TimeUUID) (mid : UUID)
    (s2 : Store) (u : Int) (page_size : Nat) (ps : Option Nat)
    (hnd : indexNoDup s.conversations_by_user)
    (h : MessageModel.create_message sender_id receiver_id content s =
      ((some cid, some mt, some mid), s2)) :
    indexNoDup s2.conversations_by_user ∧
      entriesFor s2.conversations_by_user sender_id cid =
        [⟨sender_id, mt, cid, receiver_id, sender_id, content.take 200⟩] ∧
      entriesFor s2.conversations_by_user receiver_id cid =
        [⟨receiver_id, mt, cid, sender_id, sender_id, content.take 200⟩] ∧
      ((ConversationModel.get_user_conversations u page_size ps s2).1.1).Pairwise
        (fun x y => x.id ≠ y.id) := by
  obtain ⟨hne, hm, hi⟩ :=
    create_message_success_spec sender_id receiver_id content s cid mt mid s2 h
  have hnd2 : indexNoDup s2.conversations_by_user := by
    rw [hi]
    exact indexNoDup_upsert _ _ (indexNoDup_upsert _ _ hnd)
  refine ⟨hnd2, ?_, ?_, get_user_conversations_nodup u page_size ps s2 hnd2⟩
  · rw [hi]
    rw [entriesFor_upsert_other _ _ _ _ (fun hk => hne hk.1)]
    exact entriesFor_upsert_self _
      ⟨sender_id, mt, cid, receiver_id, sender_id, content.take 200⟩
  · rw [hi]
    exact entriesFor_upsert_self _
      ⟨receiver_id, mt, cid, sender_id, sender_id, content.take 200⟩

/-- The store produced by the concrete append used as witness for C2. -/
def w2s2 : Store := (MessageModel.create_message 1 2 ['h', 'i'] store₀).2

/-- Witness for C2: a concrete successful append on the empty (key-unique)
store. -/
theorem index_one_entry_per_pair_witness :
    indexNoDup store₀.conversations_by_user ∧
      MessageModel.create_message 1 2 ['h', 'i'] store₀ =
        ((some (UUID.v4 0), some ⟨0, 0⟩, some (UUID.v4 1)), w2s2) ∧
      (indexNoDup w2s2.conversations_by_user ∧
        entriesFor w2s2.conversations_by_user 1 (UUID.v4 0) =
          [⟨1, ⟨0, 0⟩, UUID.v4 0, 2, 1, List.take 200 ['h', 'i']⟩] ∧
        entriesFor w2s2.conversations_by_user 2 (UUID.v4 0) =
          [⟨2, ⟨0, 0⟩, UUID.v4 0, 1, 1, List.take 200 ['h', 'i']⟩] ∧
        ((ConversationModel.get_user_conversations 1 20 none w2s2).1.1).Pairwise
          (fun x y => x.id ≠ y.id)) :=
  ⟨List.Pairwise.nil, rfl,
    index_one_entry_per_pair 1 2 ['h', 'i'] store₀ (UUID.v4 0) ⟨0, 0⟩ (UUID.v4 1)
      w2s2 1 20 none List.Pairwise.nil rfl⟩

/-- CLAIM C6: every successful `append(sender, receiver, content)` writes
exactly two index upserts, mirror images of each other: the sender's entry has
`user_id = sender`, `other_user_id = receiver`; the receiver's entry swaps
them; both carry `last_message_sender_id = sender`, the same
`last_message_time`, and the content truncated to 200 characters. -/
theorem create_message_fanout_mirror (sender_id receiver_id : Int)
    (content : List Char) (s : Store) (cid : UUID) (mt : TimeUUID) (mid : UUID)
    (s2 : Store)
    (h : MessageModel.create_message sender_id receiver_id content s =
      ((some cid, some mt, some mid), s2)) :
    s2.conversations_by_user =
      upsertConvIndex
        (upsertConvIndex s.conversations_by_user
          ⟨sender_id, mt, cid, receiver_id, sender_id, content.take 200⟩)
        ⟨receiver_id, mt, cid, sender_id, sender_id, content.take 200⟩ :=
  (create_message_success_spec sender_id receiver_id content s cid mt mid s2 h).2.2

/-- The store produced by the concrete append used as witness for C6. -/
def w6s2 : Store := (MessageModel.create_message 1 2 ['h', 'i'] store₀).2

/-- Witness for C6: a concrete successful append on the empty store. -/
theorem create_message_fanout_mirror_witness :
    MessageModel.create_message 1 2 ['h', 'i'] store₀ =
        ((some (UUID.v4 0), some ⟨0, 0⟩, some (UUID.v4 1)), w6s2) ∧
      w6s2.conversations_by_user =
        upsertConvIndex
          (upsertConvIndex store₀.conversations_by_user
            ⟨1, ⟨0, 0⟩, UUID.v4 0, 2, 1, List.take 200 ['h', 'i']⟩)
          ⟨2, ⟨0, 0⟩, UUID.v4 0, 1, 1, List.take 200 ['h', 'i']⟩ :=
  ⟨rfl,
    create_message_fanout_mirror 1 2 ['h', 'i'] store₀ (UUID.v4 0) ⟨0, 0⟩
      (UUID.v4 1) w6s2 rfl⟩

/-- CLAIM C7: when the content is longer than 200 characters, a successful
append stores the full untruncated content in the message row, while both
index entries carry exactly the first 200 characters (`content.take 200`,
whose length is then exactly 200, and which prepended to the rest re-forms the
content). -/
theorem create_message_truncation (sender_id receiver_id : Int)
    (content : List Char) (s : Store) (cid : UUID) (mt : TimeUUID) (mid : UUID)
    (s2 : Store)
    (h : MessageModel.create_message sender_id receiver_id content s =
      ((some cid, some mt, some mid), s2))
    (hlen : 200 < content.length) :
    s2.messages_by_conversation =
        upsertMessage s.messages_by_conversation
          ⟨cid, mt, mid, sender_id, receiver_id, content⟩ ∧
      s2.conversations_by_user =
        upsertConvIndex
          (upsertConvIndex s.conversations_by_user
            ⟨sender_id, mt, cid, receiver_id, sender_id, content.take 200⟩)
          ⟨receiver_id, mt, cid, sender_id, sender_id, content.take 200⟩ ∧
      (content.take 200).length = 200 ∧
      content.take 200 ++ content.drop 200 = content := by
  obtain ⟨-, hm, hi⟩ :=
    create_message_success_spec sender_id receiver_id content s cid mt mid s2 h
  refine ⟨hm, hi, ?_, List.take_append_drop 200 content⟩
  rw [List.length_take]
  omega

/-- The store produced by the concrete long-content append used as witness for
C7. -/
def w7s2 : Store := (MessageModel.create_message 1 2 (List.replicate 201 'a') store₀).2

/-- Witness for C7: a concrete successful append of 201 characters. -/
theorem create_message_truncation_witness :
    MessageModel.create_message 1 2 (List.replicate 201 'a') store₀ =
        ((some (UUID.v4 0), some ⟨0, 0⟩, some (UUID.v4 1)), w7s2) ∧
      200 < (List.replicate 201 'a').length ∧
      (w7s2.messages_by_conversation =
          upsertMessage store₀.messages_by_conversation
            ⟨UUID.v4 0, ⟨0, 0⟩, UUID.v4 1, 1, 2, List.replicate 201 'a'⟩ ∧
        w7s2.conversations_by_user =
          upsertConvIndex
            (upsertConvIndex store₀.conversations_by_user
              ⟨1, ⟨0, 0⟩, UUID.v4 0, 2, 1, (List.replicate 201 'a').take 200⟩)
            ⟨2, ⟨0, 0⟩, UUID.v4 0, 1, 1, (List.replicate 201 'a').take 200⟩ ∧
        ((List.replicate 201 'a').take 200).length = 200 ∧
        (List.replicate 201 'a').take 200 ++ (List.replicate 201 'a').drop 200 =
          List.replicate 201 'a') :=
  ⟨rfl, by rw [List.length_replicate]; omega,
    create_message_truncation 1 2 (List.replicate 201 'a') store₀ (UUID.v4 0)
      ⟨0, 0⟩ (UUID.v4 1) w7s2 rfl (by rw [List.length_replicate]; omega)⟩

/-- CLAIM C8: `get_messages_before_timestamp` returns only messages whose
`message_time` key is strictly less than the time key derived from
`before_timestamp` via `uuid_from_time` — strictly-before on the derived key,
not on wall-clock equality. -/
theorem get_messages_before_strict (conversation_id : UUID)
    (before_timestamp : Nat) (page_size : Nat) (ps : Option Nat) (s : Store)
    (m : MessageOut)
    (hm : m ∈ (MessageModel.get_messages_before_timestamp conversation_id
      before_timestamp page_size ps s).1.1) :
    TimeUUID.ltb m.message_time (uuid_from_time before_timestamp s).1 = true := by
  unfold MessageModel.get_messages_before_timestamp at hm
  dsimp only at hm
  split at hm
  · simp at hm
  · rw [List.mem_map] at hm
    obtain ⟨row, hrow, hfmt⟩ := hm
    have hrow2 : row ∈
        (popFault (uuid_from_time before_timestamp s).2).2.messages_by_conversation.filter
          (fun mm => decide (mm.conversation_id = conversation_id) &&
            TimeUUID.ltb mm.message_time (uuid_from_time before_timestamp s).1) :=
      ((List.take_sublist _ _).trans (List.drop_sublist _ _)).subset hrow
    rw [List.mem_filter, Bool.and_eq_true] at hrow2
    rw [← hfmt]
    exact hrow2.2.2

/-- A store holding one message at time key `⟨5, 0⟩`, used as witness for
C8. -/
def s8 : Store :=
  ⟨[], [⟨UUID.v4 0, ⟨5, 0⟩, UUID.v4 1, 1, 2, ['h']⟩], [], 2, 9, 0, []⟩

/-- Witness for C8: the stored message is returned by a query before
timestamp 7 and its time key is strictly below the derived key. -/
theorem get_messages_before_strict_witness :
    formatMessage ⟨UUID.v4 0, ⟨5, 0⟩, UUID.v4 1, 1, 2, ['h']⟩ ∈
        (MessageModel.get_messages_before_timestamp (UUID.v4 0) 7 20 none s8).1.1 ∧
      TimeUUID.ltb
        (formatMessage ⟨UUID.v4 0, ⟨5, 0⟩, UUID.v4 1, 1, 2, ['h']⟩).message_time
        (uuid_from_time 7 s8).1 = true :=
  ⟨by decide,
    get_messages_before_strict (UUID.v4 0) 7 20 none s8
      (formatMessage ⟨UUID.v4 0, ⟨5, 0⟩, UUID.v4 1, 1, 2, ['h']⟩) (by decide)⟩

/-- CLAIM C9: for each of the three read operations, a storage error during
the read yields the result `([], None)` — empty list, null cursor — rather
than a propagated exception, for every input. -/
theorem reads_degrade_on_fault (conversation_id : UUID) (before_timestamp : Nat)
    (user_id : Int) (psize₁ psize₂ psize₃ : Nat) (ps₁ ps₂ ps₃ : Option Nat)
    (s : Store) (rest : List Bool) (hf : s.faults = true :: rest) :
    (MessageModel.get_conversation_messages conversation_id psize₁ ps₁ s).1 =
        ([], none) ∧
      (MessageModel.get_messages_before_timestamp conversation_id
          before_timestamp psize₂ ps₂ s).1 = ([], none) ∧
      (ConversationModel.get_user_conversations user_id psize₃ ps₃ s).1 =
        ([], none) := by
  refine ⟨?_, ?_, ?_⟩
  · unfold MessageModel.get_conversation_messages
    simp [popFault, hf]
  · unfold MessageModel.get_messages_before_timestamp
    simp [popFault, hf]
  · unfold ConversationModel.get_user_conversations
    simp [popFault, hf]

/-- A store whose next storage call faults, used as witness for C9. -/
def s9 : Store := ⟨[], [], [], 0, 0, 0, [true]⟩

/-- Witness for C9: all three reads on the faulting store degrade to
`([], None)`. -/
theorem reads_degrade_on_fault_witness :
    s9.faults = true :: [] ∧
      ((MessageModel.get_conversation_messages (UUID.v4 0) 20 none s9).1 =
          ([], none) ∧
        (MessageModel.get_messages_before_timestamp (UUID.v4 0) 7 20 none s9).1 =
          ([], none) ∧
        (ConversationModel.get_user_conversations 1 20 none s9).1 = ([], none)) :=
  ⟨rfl, reads_degrade_on_fault (UUID.v4 0) 7 1 20 20 20 none none none s9 [] rfl⟩

/-- Witness for C3 at a concrete input: users 1 and 2 on the empty store. -/
theorem resolve_idempotent_witness :
    (1 : Int) ≠ 2 ∧ store₀.faults = [] ∧
      (∃ cid,
        (MessageModel._get_or_create_conversation_id 1 2 store₀).1 = Except.ok cid ∧
        (MessageModel._get_or_create_conversation_id 1 2
            (MessageModel._get_or_create_conversation_id 1 2 store₀).2).1 =
          Except.ok cid ∧
        (MessageModel._get_or_create_conversation_id 1 2
            (MessageModel._get_or_create_conversation_id 1 2 store₀).2).2 =
          (MessageModel._get_or_create_conversation_id 1 2 store₀).2 ∧
        ((∃ r ∈ store₀.conversation_by_users,
            r.user_a_id = min 1 2 ∧ r.user_b_id = max 1 2) →
          (MessageModel._get_or_create_conversation_id 1 2 store₀).2 = store₀)) :=
  ⟨by decide, rfl, resolve_idempotent 1 2 store₀ (by decide) rfl⟩
